import Mathlib

/-!
posix-clock: a verification development

A shallow embedding of `src/posix-clock.cpp`, the native binding that exposes
`clock_gettime`, `clock_getres` and `clock_nanosleep` to a JavaScript caller,
followed by theorems about the three operations and the constant table.

Conventions of the embedding:

* a JavaScript value is a term of `JSValue`; an object is its list of own data
  properties (accessor properties and prototype chains are outside the model);
* what the C library headers and the JavaScript engine contribute (errno
  constants, `strerror`, integer widths, string-to-number coercion) is collected
  in `Host` and taken as a parameter;
* an OS primitive is a function from its arguments to what it reports;
* a call yields an `Outcome`: the OS primitives it invoked, in order, and how it
  completed (a returned value, or a thrown exception with its constructor and
  message).
-/

namespace PosixClock

/-! ## Data model -/

/-- Number values of the calling runtime, as far as the binding can observe them. -/
inductive JSNumber where
  /-- A finite number whose value is the integer `i`, other than minus zero. -/
  | integral (i : Int)
  /-- Minus zero. -/
  | negZero
  /-- A finite number that is not an integer; `trunc` is its integer part (rounded toward zero). -/
  | fractional (trunc : Int)
  /-- Not-a-number. -/
  | nan
  /-- Plus or minus infinity. -/
  | infinite (positive : Bool)

/-- Values a caller can pass to, or receive from, the binding. -/
inductive JSValue where
  | undefined
  | null
  | boolean (b : Bool)
  | number (n : JSNumber)
  | string (s : String)
  /-- An object, given by its own data properties in insertion order. -/
  | object (props : List (String × JSValue))

/-- The two exception constructors the source uses: `Exception::Error` and `Exception::TypeError`. -/
inductive ErrorCtor where
  | Error
  | TypeError
  deriving DecidableEq

/-- How a call into the binding completes. A call that never sets its return value returns `undefined`. -/
inductive Completion where
  | returned (value : JSValue)
  | threw (ctor : ErrorCtor) (message : String)

/-- The C `struct timespec`. -/
structure Timespec where
  tv_sec : Int
  tv_nsec : Int
  deriving DecidableEq

/-- An invocation of an OS primitive, with the arguments it was given. -/
inductive SysCall where
  | clock_gettime (clockId : Int)
  | clock_getres (clockId : Int)
  | clock_nanosleep (clockId : Int) (flags : Int) (request : Timespec)
  | nanosleep (request : Timespec)
  deriving DecidableEq

/-- The observable outcome of one call: the OS primitives invoked, in order, and the completion. -/
structure Outcome where
  calls : List SysCall
  result : Completion

/-- What `clock_gettime` / `clock_getres` report: the return value, the `errno` left behind, and
the `timespec` written through the out-pointer. -/
structure ClockReport where
  ret : Int
  errno : Int
  ts : Timespec

/-- What `clock_nanosleep` reports: its return value (0 or a positive error number) and the
`timespec` written to the remaining-time out-pointer. -/
structure SleepReport where
  err : Int
  remaining : Timespec

/-- What plain `nanosleep` reports: the return value, `errno`, and the remaining time. -/
structure NanosleepReport where
  ret : Int
  errno : Int
  remaining : Timespec

/-- The OS sleep primitives available to `ClockNanosleep`. -/
structure SleepOS where
  clock_nanosleep : Int → Int → Timespec → SleepReport
  nanosleep : Timespec → NanosleepReport

/-- Everything the binding takes from outside this repository: the C library headers of the build
host and the coercions of the JavaScript engine. -/
structure Host where
  /-- True when the preprocessor symbol `__linux__` is defined. -/
  linux : Bool
  EINVAL : Int
  EINTR : Int
  TIMER_ABSTIME : Int
  CLOCK_REALTIME : Int
  strerror : Int → String
  /-- Width in bits of `time_t`. -/
  timeBits : Nat
  /-- Width in bits of `long`. -/
  longBits : Nat
  /-- The engine's number coercion of strings and objects. -/
  ToNumber : JSValue → JSNumber
  /-- The engine's string conversion of values other than integer numbers. -/
  ToString : JSValue → String

/-! ## Integer conversions -/

/-- Conversion of an integer to a signed two's-complement type of `w` bits. -/
def castSigned (w : Nat) (x : Int) : Int :=
  (x + 2 ^ (w - 1)) % 2 ^ w - 2 ^ (w - 1)

/-- Conversion of an integer to `uint32_t`. -/
def castUint32 (x : Int) : Int :=
  x % 2 ^ 32

/-- Conversion of an integer (of magnitude below 2^1024) to `double`: the nearest value with a
53-bit significand, ties to even. The result is again an integer and is returned as such. -/
def roundToDouble (x : Int) : Int :=
  let n := x.natAbs
  if n < 2 ^ 53 then x
  else
    let e := Nat.log2 n - 52
    let q := n / 2 ^ e
    let r := n % 2 ^ e
    let half := 2 ^ (e - 1)
    let q1 := if half < r ∨ (r = half ∧ q % 2 = 1) then q + 1 else q
    Int.sign x * ((q1 * 2 ^ e : Nat) : Int)

/-! ## The engine's value API -/

/-- Method `Value::IsUndefined`. -/
def IsUndefined : JSValue → Bool
  | .undefined => true
  | _ => false

/-- Method `Value::IsObject`. -/
def IsObject : JSValue → Bool
  | .object _ => true
  | _ => false

/-- Method `Value::IsInt32`: a number that is an integer in [-2^31, 2^31 - 1] and not minus zero. -/
def IsInt32 : JSValue → Bool
  | .number (.integral i) => decide (-(2 ^ 31) ≤ i ∧ i ≤ 2 ^ 31 - 1)
  | _ => false

/-- Method `Value::IsUint32`: a number that is an integer in [0, 2^32 - 1] and not minus zero. -/
def IsUint32 : JSValue → Bool
  | .number (.integral i) => decide (0 ≤ i ∧ i ≤ 2 ^ 32 - 1)
  | _ => false

/-- Number coercion: fixed by the language for undefined, null, booleans and numbers; the engine's
for strings and objects. -/
def ToNumber (H : Host) : JSValue → JSNumber
  | .undefined => .nan
  | .null => .integral 0
  | .boolean b => .integral (if b then 1 else 0)
  | .number n => n
  | v => H.ToNumber v

/-- The integer a number is truncated to before a 32-bit conversion; 0 for NaN and infinities. -/
def truncate : JSNumber → Int
  | .integral i => i
  | .fractional t => t
  | _ => 0

/-- Method `Value::Int32Value`. -/
def Int32Value (H : Host) (v : JSValue) : Int :=
  castSigned 32 (truncate (ToNumber H v))

/-- Method `Value::Uint32Value`. -/
def Uint32Value (H : Host) (v : JSValue) : Int :=
  castUint32 (truncate (ToNumber H v))

/-- Method `Value::ToString`: the decimal numeral for an integer number, the engine's conversion otherwise. -/
def ToString (H : Host) : JSValue → String
  | .number (.integral i) => toString i
  | v => H.ToString v

/-- Method `Object::Get` on the property list: the value of the first property of that name, else undefined. -/
def ObjectGet : List (String × JSValue) → String → JSValue
  | [], _ => .undefined
  | (k, v) :: rest, name => if k = name then v else ObjectGet rest name

/-- Method `Value::ToObject` followed by `Object::Get`. The source only calls it on values for which
`IsObject` holds, where `ToObject` is the identity. -/
def Get (v : JSValue) (name : String) : JSValue :=
  match v with
  | .object props => ObjectGet props name
  | _ => .undefined

/-- Method `Object::Set` on the property list: overwrite the property of that name, or append it. -/
def ObjectSet : List (String × JSValue) → String → JSValue → List (String × JSValue)
  | [], name, x => [(name, x)]
  | (k, v) :: rest, name, x =>
    if k = name then (k, x) :: rest else (k, v) :: ObjectSet rest name x

/-- Call `Number::New(isolate, sec)` for an integer `sec`: the conversion to `double`. -/
def NumberNew (sec : Int) : JSValue :=
  .number (.integral (roundToDouble sec))

/-- Call `Integer::NewFromUnsigned(isolate, static_cast<uint32_t>(nsec))`. -/
def NewFromUnsigned (nsec : Int) : JSValue :=
  .number (.integral (castUint32 nsec))

/-- Macro `AVZ_FILL_TIMESPEC(target, sec, nsec)`. -/
def AVZ_FILL_TIMESPEC (target : List (String × JSValue)) (sec nsec : Int) :
    List (String × JSValue) :=
  ObjectSet (ObjectSet target "sec" (NumberNew sec)) "nsec" (NewFromUnsigned nsec)

/-! ## The three operations -/

/-- Macro `AVZ_VALIDATE_ARG_CLOCKID(arg)`: throws and returns from the enclosing function unless
`arg` is an int32; `rest` is the remainder of the enclosing function. -/
def AVZ_VALIDATE_ARG_CLOCKID (arg : JSValue) (rest : Outcome) : Outcome :=
  if !IsInt32 arg then
    ⟨[], .threw .Error "Specified clockId is not supported on this system"⟩
  else rest

/-- Function `ClockGetTime`, exported as `gettime`. -/
def ClockGetTime (H : Host) (clock_gettime : Int → ClockReport) (args : List JSValue) : Outcome :=
  match args with
  | [arg0] =>
    AVZ_VALIDATE_ARG_CLOCKID arg0 <|
      let clockId := Int32Value H arg0
      let rep := clock_gettime clockId
      if rep.ret ≠ 0 then
        if rep.errno = H.EINVAL then
          ⟨[.clock_gettime clockId],
            .threw .Error "Specified clockId is not supported on this system"⟩
        else
          ⟨[.clock_gettime clockId],
            .threw .Error (H.strerror rep.errno ++ ToString H arg0)⟩
      else
        ⟨[.clock_gettime clockId],
          .returned (.object (AVZ_FILL_TIMESPEC [] rep.ts.tv_sec rep.ts.tv_nsec))⟩
  | _ => ⟨[], .threw .TypeError "Wrong number of arguments"⟩

/-- Function `ClockGetRes`, exported as `getres`. -/
def ClockGetRes (H : Host) (clock_getres : Int → ClockReport) (args : List JSValue) : Outcome :=
  match args with
  | [arg0] =>
    AVZ_VALIDATE_ARG_CLOCKID arg0 <|
      let clockId := Int32Value H arg0
      let rep := clock_getres clockId
      if rep.ret ≠ 0 then
        if rep.errno = H.EINVAL then
          ⟨[.clock_getres clockId],
            .threw .Error "Specified clockId is not supported on this system"⟩
        else
          ⟨[.clock_getres clockId],
            .threw .Error (H.strerror rep.errno ++ ToString H arg0)⟩
      else
        ⟨[.clock_getres clockId],
          .returned (.object (AVZ_FILL_TIMESPEC [] rep.ts.tv_sec rep.ts.tv_nsec))⟩
  | _ => ⟨[], .threw .TypeError "Wrong number of arguments"⟩

/-- The part of `ClockNanosleep` under `#ifdef __linux__`: the call of `clock_nanosleep` and the
treatment of its return value. -/
def sleepLinux (H : Host) (os : SleepOS) (arg0 : JSValue) (clockId flags : Int)
    (sleepTimeTs : Timespec) : Outcome :=
  let rep := os.clock_nanosleep clockId flags sleepTimeTs
  let err := rep.err
  let remainingTimeTs := rep.remaining
  let calls := [SysCall.clock_nanosleep clockId flags sleepTimeTs]
  if err ≠ 0 then
    if err = H.EINVAL then
      ⟨calls, .threw .Error
        "Specified clockId is not supported on this system or invalid argument"⟩
    else if err = H.EINTR then
      -- stopped by signal: the object is filled in, then the function returns without
      -- handing it to the return value
      let res := if Int.land flags H.TIMER_ABSTIME ≠ 0 then sleepTimeTs else remainingTimeTs
      let _obj := JSValue.object (AVZ_FILL_TIMESPEC [] res.tv_sec res.tv_nsec)
      ⟨calls, .returned .undefined⟩
    else
      ⟨calls, .threw .Error (H.strerror err ++ ": " ++ ToString H arg0)⟩
  else
    ⟨calls, .returned .undefined⟩

/-- The part of `ClockNanosleep` under `#else`: the fallback to plain `nanosleep`. The interrupted
branch is written against the older engine API (`Object::New()` without an isolate, and
`return scope.Close(obj)`), in which the closed handle is the result of the call; it is modelled
with that meaning. The error branch passes the return value `err`, not `errno`, to `strerror`. -/
def sleepFallback (H : Host) (os : SleepOS) (arg0 : JSValue) (clockId flags : Int)
    (sleepTimeTs : Timespec) : Outcome :=
  if clockId ≠ H.CLOCK_REALTIME then
    ⟨[], .threw .Error "Only nanosleep(REALTIME) clock is supported by your OS"⟩
  else if Int.land flags H.TIMER_ABSTIME ≠ 0 then
    ⟨[], .threw .Error "Flag nanosleep(TIMER_ABSTIME) is not supported by your OS"⟩
  else
    let rep := os.nanosleep sleepTimeTs
    let err := rep.ret
    let remainingTimeTs := rep.remaining
    let calls := [SysCall.nanosleep sleepTimeTs]
    if err = -1 then
      if rep.errno = H.EINTR then
        ⟨calls, .returned
          (.object (AVZ_FILL_TIMESPEC [] remainingTimeTs.tv_sec remainingTimeTs.tv_nsec))⟩
      else
        ⟨calls, .threw .Error (H.strerror err ++ ": " ++ ToString H arg0)⟩
    else
      ⟨calls, .returned .undefined⟩

/-- Function `ClockNanosleep`, exported as `nanosleep`. -/
def ClockNanosleep (H : Host) (os : SleepOS) (args : List JSValue) : Outcome :=
  match args with
  | [arg0, arg1, arg2] =>
    AVZ_VALIDATE_ARG_CLOCKID arg0 <|
      let clockId := Int32Value H arg0
      let flags := Int32Value H arg1
      if !IsObject arg2 then
        ⟨[], .threw .Error "Sleep time must be an object, e.g. \x7bsec: 1212, nsec: 4344\x7d"⟩
      else
        let secValue := Get arg2 "sec"
        let nsecValue := Get arg2 "nsec"
        if !IsUndefined secValue && !IsUint32 secValue then
          ⟨[], .threw .Error "Option `sec` must be unsigned integer"⟩
        else if !IsUndefined nsecValue && !IsUint32 nsecValue then
          ⟨[], .threw .Error "Option `nsec` must be unsigned integer"⟩
        else
          let sleepTimeTs : Timespec :=
            { tv_sec := castSigned H.timeBits (Uint32Value H secValue)
              tv_nsec := castSigned H.longBits (Uint32Value H nsecValue) }
          if sleepTimeTs.tv_nsec < 0 ∨ sleepTimeTs.tv_nsec ≥ 1000000000 then
            ⟨[], .threw .Error "Option `nsec` must be in [0; 999999999]"⟩
          else if H.linux then
            sleepLinux H os arg0 clockId flags sleepTimeTs
          else
            sleepFallback H os arg0 clockId flags sleepTimeTs
  | _ => ⟨[], .threw .TypeError "Wrong number of arguments"⟩

/-! ## The constant table -/

/-- The macros of `<time.h>` that `init` consults. `CLOCK_REALTIME` and `CLOCK_MONOTONIC` are used
unconditionally; each of the others is `some v` when the host defines it with value `v`. -/
structure Macros where
  TIMER_ABSTIME : Option Int
  CLOCK_REALTIME : Int
  CLOCK_MONOTONIC : Int
  CLOCK_REALTIME_COARSE : Option Int
  CLOCK_MONOTONIC_COARSE : Option Int
  CLOCK_MONOTONIC_RAW : Option Int
  CLOCK_BOOTTIME : Option Int
  CLOCK_PROCESS_CPUTIME_ID : Option Int
  CLOCK_THREAD_CPUTIME_ID : Option Int
  CLOCK_REALTIME_FAST : Option Int
  CLOCK_REALTIME_PRECISE : Option Int
  CLOCK_MONOTONIC_FAST : Option Int
  CLOCK_MONOTONIC_PRECISE : Option Int
  CLOCK_UPTIME : Option Int
  CLOCK_UPTIME_FAST : Option Int
  CLOCK_UPTIME_PRECISE : Option Int
  CLOCK_SECOND : Option Int
  CLOCK_PROF : Option Int

/-- Macro `ODC_DEFINE_CONSTANT(target, name, value)`: sets property `name` of `target` to the number
`static_cast<double>(value)`. (The read-only and non-deletable attributes are not modelled.) -/
def ODC_DEFINE_CONSTANT (target : List (String × JSValue)) (name : String) (value : Int) :
    List (String × JSValue) :=
  ObjectSet target name (NumberNew value)

/-- A line `ODC_DEFINE_CONSTANT(target, name, M)` between `#ifdef M` and `#endif`. -/
def ifdefConstant (target : List (String × JSValue)) (name : String) (value : Option Int) :
    List (String × JSValue) :=
  match value with
  | some v => ODC_DEFINE_CONSTANT target name v
  | none => target

/-- Function `init`, as far as it acts on `exports`. (The three `NODE_SET_METHOD` lines act on
`module` and bind functions, which are not values of this model.) -/
def init (M : Macros) (exports : List (String × JSValue)) : List (String × JSValue) :=
  let exports := ifdefConstant exports "TIMER_ABSTIME" M.TIMER_ABSTIME
  let exports := ODC_DEFINE_CONSTANT exports "REALTIME" M.CLOCK_REALTIME
  let exports := ODC_DEFINE_CONSTANT exports "MONOTONIC" M.CLOCK_MONOTONIC
  let exports := ifdefConstant exports "REALTIME_COARSE" M.CLOCK_REALTIME_COARSE
  let exports := ifdefConstant exports "MONOTONIC_COARSE" M.CLOCK_MONOTONIC_COARSE
  let exports := ifdefConstant exports "MONOTONIC_RAW" M.CLOCK_MONOTONIC_RAW
  let exports := ifdefConstant exports "BOOTTIME" M.CLOCK_BOOTTIME
  let exports := ifdefConstant exports "PROCESS_CPUTIME_ID" M.CLOCK_PROCESS_CPUTIME_ID
  let exports := ifdefConstant exports "THREAD_CPUTIME_ID" M.CLOCK_THREAD_CPUTIME_ID
  let exports := ifdefConstant exports "REALTIME_FAST" M.CLOCK_REALTIME_FAST
  let exports := ifdefConstant exports "REALTIME_PRECISE" M.CLOCK_REALTIME_PRECISE
  let exports := ifdefConstant exports "MONOTONIC_FAST" M.CLOCK_MONOTONIC_FAST
  let exports := ifdefConstant exports "MONOTONIC_PRECISE" M.CLOCK_MONOTONIC_PRECISE
  let exports := ifdefConstant exports "UPTIME" M.CLOCK_UPTIME
  let exports := ifdefConstant exports "UPTIME_FAST" M.CLOCK_UPTIME_FAST
  let exports := ifdefConstant exports "THREAD_UPTIME_PRECISE" M.CLOCK_UPTIME_PRECISE
  let exports := ifdefConstant exports "THREAD_SECOND" M.CLOCK_SECOND
  let exports := ifdefConstant exports "PROF" M.CLOCK_PROF
  exports

/-- The names bound on an export object, in insertion order. -/
def exportedNames (exports : List (String × JSValue)) : List String :=
  exports.map Prod.fst

/-! ## Vocabulary for the statements -/

/-- The `timespec` that `ClockNanosleep` builds from its third argument (`sleepTimeTs`). -/
def requestedTime (H : Host) (arg2 : JSValue) : Timespec :=
  { tv_sec := castSigned H.timeBits (Uint32Value H (Get arg2 "sec"))
    tv_nsec := castSigned H.longBits (Uint32Value H (Get arg2 "nsec")) }

/-- The arguments pass every check `ClockNanosleep` makes before it reaches the platform-specific
part: the clock id is an int32, the third argument is an object, `sec` and `nsec` are each undefined
or a uint32, and the resulting nanoseconds lie in [0, 999999999]. -/
def PassesValidation (H : Host) (arg0 arg2 : JSValue) : Prop :=
  IsInt32 arg0 = true ∧ IsObject arg2 = true ∧
  (IsUndefined (Get arg2 "sec") = true ∨ IsUint32 (Get arg2 "sec") = true) ∧
  (IsUndefined (Get arg2 "nsec") = true ∨ IsUint32 (Get arg2 "nsec") = true) ∧
  0 ≤ (requestedTime H arg2).tv_nsec ∧ (requestedTime H arg2).tv_nsec < 1000000000

instance (H : Host) (arg0 arg2 : JSValue) : Decidable (PassesValidation H arg0 arg2) := by
  unfold PassesValidation
  infer_instance

/-- The value of an optional numeric field of the sleep-time object: undefined when absent. -/
def fieldValue : Option Int → JSValue
  | none => .undefined
  | some x => .number (.integral x)

/-- Renames a clock-read invocation into the clock-resolution invocation on the same clock id. -/
def asResolutionCall : SysCall → SysCall
  | .clock_gettime clockId => .clock_getres clockId
  | c => c

/-- The number value with integer value `i`. -/
def num (i : Int) : JSValue :=
  .number (.integral i)

/-- The caller-visible record `{sec, nsec}`. -/
def timeValue (sec nsec : Int) : JSValue :=
  .object [("sec", num sec), ("nsec", num nsec)]

/-! ## Sample hosts -/

/-- A 64-bit Linux host. -/
def linuxHost : Host where
  linux := true
  EINVAL := 22
  EINTR := 4
  TIMER_ABSTIME := 1
  CLOCK_REALTIME := 0
  strerror := fun e => if e = 1 then "Operation not permitted" else "Unknown error"
  timeBits := 64
  longBits := 64
  ToNumber := fun _ => .nan
  ToString := fun _ => "[object Object]"

/-- A Linux host on which `time_t` and `long` have 32 bits. -/
def linux32Host : Host where
  linux := true
  EINVAL := 22
  EINTR := 4
  TIMER_ABSTIME := 1
  CLOCK_REALTIME := 0
  strerror := fun e => if e = 1 then "Operation not permitted" else "Unknown error"
  timeBits := 32
  longBits := 32
  ToNumber := fun _ => .nan
  ToString := fun _ => "[object Object]"

/-- A 64-bit FreeBSD host: no `__linux__`, hence the fallback sleep path. -/
def bsdHost : Host where
  linux := false
  EINVAL := 22
  EINTR := 4
  TIMER_ABSTIME := 1
  CLOCK_REALTIME := 0
  strerror := fun e => if e = 1 then "Operation not permitted" else "Unknown error"
  timeBits := 64
  longBits := 64
  ToNumber := fun _ => .nan
  ToString := fun _ => "[object Object]"

/-- The clock macros of FreeBSD `<time.h>`. -/
def freebsdMacros : Macros where
  TIMER_ABSTIME := some 1
  CLOCK_REALTIME := 0
  CLOCK_MONOTONIC := 4
  CLOCK_REALTIME_COARSE := none
  CLOCK_MONOTONIC_COARSE := none
  CLOCK_MONOTONIC_RAW := none
  CLOCK_BOOTTIME := none
  CLOCK_PROCESS_CPUTIME_ID := some 15
  CLOCK_THREAD_CPUTIME_ID := some 14
  CLOCK_REALTIME_FAST := some 10
  CLOCK_REALTIME_PRECISE := some 9
  CLOCK_MONOTONIC_FAST := some 12
  CLOCK_MONOTONIC_PRECISE := some 11
  CLOCK_UPTIME := some 5
  CLOCK_UPTIME_FAST := some 8
  CLOCK_UPTIME_PRECISE := some 7
  CLOCK_SECOND := some 13
  CLOCK_PROF := some 2

/-- An OS whose sleep primitives are interrupted by a signal with half a second left. -/
def interruptedOS : SleepOS where
  clock_nanosleep := fun _ _ _ => ⟨4, ⟨0, 500000000⟩⟩
  nanosleep := fun _ => ⟨-1, 4, ⟨0, 500000000⟩⟩

/-- A clock primitive that rejects every clock id with `EINVAL`. -/
def rejectingClock : Int → ClockReport :=
  fun _ => ⟨-1, 22, ⟨0, 0⟩⟩

/-- A clock primitive that fails with `EPERM`. -/
def deniedClock : Int → ClockReport :=
  fun _ => ⟨-1, 1, ⟨0, 0⟩⟩

/-- A clock primitive that reports 1700000000 seconds and 123456789 nanoseconds. -/
def tickingClock : Int → ClockReport :=
  fun _ => ⟨0, 0, ⟨1700000000, 123456789⟩⟩

/-- An OS whose sleep primitives fail with `EPERM`. -/
def deniedOS : SleepOS where
  clock_nanosleep := fun _ _ req => ⟨1, req⟩
  nanosleep := fun req => ⟨-1, 1, req⟩

/-- An OS whose sleep primitives run to completion. -/
def quietOS : SleepOS where
  clock_nanosleep := fun _ _ req => ⟨0, req⟩
  nanosleep := fun req => ⟨0, 0, req⟩

/-! ## Lemmas on the integer conversions -/

theorem castSigned_eq_self (w : Nat) (x : Int) (hw : 1 ≤ w)
    (hlo : -(2 ^ (w - 1)) ≤ x) (hhi : x < 2 ^ (w - 1)) : castSigned w x = x := by
  unfold castSigned
  have hpow : (2 : Int) ^ w = 2 * 2 ^ (w - 1) := by
    obtain ⟨k, rfl⟩ : ∃ k, w = k + 1 := ⟨w - 1, by omega⟩
    simp [pow_succ, mul_comm]
  rw [hpow, Int.emod_eq_of_lt (by omega) (by omega)]
  omega

theorem two_pow_le_two_pow (a b : Nat) (h : a ≤ b) : (2 : Int) ^ a ≤ 2 ^ b :=
  pow_le_pow_right₀ (by norm_num) h

theorem castSigned32_eq_self (x : Int) (hlo : -(2 ^ 31) ≤ x) (hhi : x ≤ 2 ^ 31 - 1) :
    castSigned 32 x = x :=
  castSigned_eq_self 32 x (by norm_num) (by norm_num; omega) (by norm_num; omega)

theorem castSigned_uint32_wide (w : Nat) (x : Int) (hw : 32 < w)
    (hlo : 0 ≤ x) (hhi : x < 2 ^ 32) : castSigned w x = x := by
  have h := two_pow_le_two_pow 32 (w - 1) (by omega)
  apply castSigned_eq_self w x (by omega) <;> omega

theorem castUint32_eq_self (x : Int) (hlo : 0 ≤ x) (hhi : x < 2 ^ 32) : castUint32 x = x := by
  unfold castUint32
  exact Int.emod_eq_of_lt hlo hhi

/-- Converting a uint32 to a `long` of at least 32 bits gives a value outside [0, 999999999]
exactly when the uint32 is at least 1000000000. -/
theorem castSigned_long_out_of_range (w : Nat) (n : Int) (hw : 32 ≤ w)
    (hlo : 0 ≤ n) (hhi : n < 2 ^ 32) :
    (castSigned w n < 0 ∨ castSigned w n ≥ 1000000000) ↔ 1000000000 ≤ n := by
  have hm := two_pow_le_two_pow 31 (w - 1) (by omega)
  have hpow : (2 : Int) ^ w = 2 * 2 ^ (w - 1) := by
    obtain ⟨k, rfl⟩ : ∃ k, w = k + 1 := ⟨w - 1, by omega⟩
    simp [pow_succ, mul_comm]
  norm_num at hm hhi
  by_cases hlt : n < 2 ^ (w - 1)
  · rw [castSigned_eq_self w n (by omega) (by omega) hlt]
    omega
  · have hval : castSigned w n = n - 2 * 2 ^ (w - 1) := by
      unfold castSigned
      rw [hpow]
      have : n + 2 ^ (w - 1) = (n - 2 ^ (w - 1)) + 2 * 2 ^ (w - 1) := by ring
      rw [this, Int.add_emod_self, Int.emod_eq_of_lt (by omega) (by omega)]
      ring
    rw [hval]
    omega

theorem roundToDouble_eq_self (x : Int) (h : x.natAbs < 2 ^ 53) : roundToDouble x = x := by
  unfold roundToDouble
  exact if_pos h

/-! ## Lemmas on the operations -/

/-- A message of the form `description ++ ": " ++ id` contains a colon. -/
theorem colon_mem_described (a b : String) : ':' ∈ (a ++ ": " ++ b).data := by
  simp [String.data_append]

/-- Once the arguments pass validation, `ClockNanosleep` is its platform-specific part applied to
the converted clock id, flags and requested time. -/
theorem ClockNanosleep_of_valid (H : Host) (os : SleepOS) (arg0 arg1 arg2 : JSValue)
    (h : PassesValidation H arg0 arg2) :
    ClockNanosleep H os [arg0, arg1, arg2] =
      if H.linux then
        sleepLinux H os arg0 (Int32Value H arg0) (Int32Value H arg1) (requestedTime H arg2)
      else
        sleepFallback H os arg0 (Int32Value H arg0) (Int32Value H arg1) (requestedTime H arg2) := by
  obtain ⟨h0, hobj, hsec, hnsec, hlo, hhi⟩ := h
  have hsec2 : (!IsUndefined (Get arg2 "sec") && !IsUint32 (Get arg2 "sec")) = false := by
    rcases hsec with h | h <;> simp [h]
  have hnsec2 : (!IsUndefined (Get arg2 "nsec") && !IsUint32 (Get arg2 "nsec")) = false := by
    rcases hnsec with h | h <;> simp [h]
  have hrange : ¬ ((requestedTime H arg2).tv_nsec < 0 ∨
      (requestedTime H arg2).tv_nsec ≥ 1000000000) := by omega
  unfold requestedTime at hrange
  simp only [ClockNanosleep, AVZ_VALIDATE_ARG_CLOCKID, h0, hobj, hsec2, hnsec2, requestedTime]
  simp only [Bool.not_true, Bool.false_eq_true, if_false, hrange]

/-- The nanoseconds of the requested time: 0 for an absent `nsec`, the supplied value for a present
one below 1000000000, on a host whose `long` has at least 32 bits. -/
theorem requestedTime_nsec_of_field (H : Host) (arg2 : JSValue) (nsec : Option Int)
    (hlong : 32 ≤ H.longBits) (hnsec : Get arg2 "nsec" = fieldValue nsec)
    (hn : ∀ n, nsec = some n → 0 ≤ n ∧ n < 1000000000) :
    (requestedTime H arg2).tv_nsec = nsec.getD 0 := by
  have hm := two_pow_le_two_pow 31 (H.longBits - 1) (by omega)
  norm_num at hm
  simp only [requestedTime, hnsec]
  cases nsec with
  | none =>
    simp only [fieldValue, Uint32Value, ToNumber, truncate, Option.getD_none]
    rw [castUint32_eq_self 0 (by norm_num) (by norm_num)]
    exact castSigned_eq_self _ 0 (by omega) (by omega) (by omega)
  | some x =>
    obtain ⟨h1, h2⟩ := hn x rfl
    simp only [fieldValue, Uint32Value, ToNumber, truncate, Option.getD_some]
    rw [castUint32_eq_self x h1 (by norm_num; omega)]
    exact castSigned_eq_self _ x (by omega) (by omega) (by omega)

/-- The seconds of the requested time are the conversion to `time_t` of 0 for an absent `sec` and of
the supplied value for a present uint32. -/
theorem requestedTime_sec_of_field (H : Host) (arg2 : JSValue) (sec : Option Int)
    (hsec : Get arg2 "sec" = fieldValue sec)
    (hs : ∀ s, sec = some s → 0 ≤ s ∧ s < 2 ^ 32) :
    (requestedTime H arg2).tv_sec = castSigned H.timeBits (sec.getD 0) := by
  simp only [requestedTime, hsec]
  cases sec with
  | none =>
    simp only [fieldValue, Uint32Value, ToNumber, truncate, Option.getD_none]
    rw [castUint32_eq_self 0 (by norm_num) (by norm_num)]
  | some x =>
    obtain ⟨h1, h2⟩ := hs x rfl
    simp only [fieldValue, Uint32Value, ToNumber, truncate, Option.getD_some]
    rw [castUint32_eq_self x h1 h2]

/-- The conversion to `time_t` keeps 0, and keeps a supplied uint32 that `time_t` can represent. -/
theorem castSigned_time_of_fits (w : Nat) (sec : Option Int) (hw : 0 < w)
    (hs : ∀ s, sec = some s → 0 ≤ s ∧ s < 2 ^ 32)
    (hfit : ∀ s, sec = some s → s < 2 ^ (w - 1)) :
    castSigned w (sec.getD 0) = sec.getD 0 := by
  have hpos : (0 : Int) < 2 ^ (w - 1) := by positivity
  cases sec with
  | none => exact castSigned_eq_self w 0 hw (by omega) hpos
  | some x =>
    obtain ⟨h1, _⟩ := hs x rfl
    exact castSigned_eq_self w x hw (by omega) (hfit x rfl)

/-- Fields that are each absent or a valid present value pass validation. -/
theorem passesValidation_of_fields (H : Host) (arg0 arg2 : JSValue) (sec nsec : Option Int)
    (hlong : 32 ≤ H.longBits)
    (h0 : IsInt32 arg0 = true) (hobj : IsObject arg2 = true)
    (hsec : Get arg2 "sec" = fieldValue sec) (hnsec : Get arg2 "nsec" = fieldValue nsec)
    (hs : ∀ s, sec = some s → 0 ≤ s ∧ s < 2 ^ 32)
    (hn : ∀ n, nsec = some n → 0 ≤ n ∧ n < 1000000000) :
    PassesValidation H arg0 arg2 := by
  have hreq := requestedTime_nsec_of_field H arg2 nsec hlong hnsec hn
  refine ⟨h0, hobj, ?_, ?_, ?_, ?_⟩
  · rw [hsec]
    cases sec with
    | none => left; rfl
    | some x =>
      right
      obtain ⟨h1, h2⟩ := hs x rfl
      simp only [fieldValue, IsUint32, decide_eq_true_eq]
      omega
  · rw [hnsec]
    cases nsec with
    | none => left; rfl
    | some x =>
      right
      obtain ⟨h1, h2⟩ := hn x rfl
      simp only [fieldValue, IsUint32, decide_eq_true_eq]
      norm_num
      omega
  · rw [hreq]
    cases nsec with
    | none => simp
    | some x => exact (hn x rfl).1
  · rw [hreq]
    cases nsec with
    | none => simp
    | some x => exact (hn x rfl).2

/-! ## Interrupted sleep -/

/-- C1 (what the code does): on the `clock_nanosleep` path, for every call whose arguments pass
validation and whose sleep primitive reports `EINTR`, the call invokes the primitive once and
completes by returning `undefined`, whatever the flags: the record with the remaining (or the
requested) time is built but is not the value returned. -/
theorem nanosleep_interrupted_returns_undefined (H : Host) (os : SleepOS)
    (arg0 arg1 arg2 : JSValue) (hlinux : H.linux = true)
    (hval : PassesValidation H arg0 arg2) (hne : H.EINTR ≠ H.EINVAL)
    (hintr : (os.clock_nanosleep (Int32Value H arg0) (Int32Value H arg1)
      (requestedTime H arg2)).err = H.EINTR) :
    (ClockNanosleep H os [arg0, arg1, arg2]).calls =
        [.clock_nanosleep (Int32Value H arg0) (Int32Value H arg1) (requestedTime H arg2)] ∧
    (ClockNanosleep H os [arg0, arg1, arg2]).result = .returned .undefined := by
  rw [ClockNanosleep_of_valid H os arg0 arg1 arg2 hval, hlinux]
  simp only [if_true, sleepLinux, hintr, hne, if_false]
  split_ifs <;> exact ⟨rfl, rfl⟩

/-- C1, at a relative sleep of one second on the monotonic clock interrupted with half a second
left, and at the same call with the absolute-time flag: both return `undefined`. -/
theorem nanosleep_interrupted_returns_undefined_witness :
    (ClockNanosleep linuxHost interruptedOS [num 1, num 0, timeValue 1 0]).result
        = .returned .undefined ∧
    (ClockNanosleep linuxHost interruptedOS [num 1, num 1, timeValue 1 0]).result
        = .returned .undefined :=
  ⟨(nanosleep_interrupted_returns_undefined linuxHost interruptedOS (num 1) (num 0)
      (timeValue 1 0) rfl (by decide) (by decide) rfl).2,
   (nanosleep_interrupted_returns_undefined linuxHost interruptedOS (num 1) (num 1)
      (timeValue 1 0) rfl (by decide) (by decide) rfl).2⟩

/-! ## Validation of the sleep arguments -/

/-- C3: a three-argument `nanosleep` call with an int32 clock id whose third argument is not an
object invokes no OS primitive and throws the error that asks for an object. -/
theorem nanosleep_rejects_non_object (H : Host) (os : SleepOS) (arg0 arg1 arg2 : JSValue)
    (h0 : IsInt32 arg0 = true) (hobj : IsObject arg2 = false) :
    (ClockNanosleep H os [arg0, arg1, arg2]).calls = [] ∧
    (ClockNanosleep H os [arg0, arg1, arg2]).result =
      .threw .Error "Sleep time must be an object, e.g. \x7bsec: 1212, nsec: 4344\x7d" := by
  simp [ClockNanosleep, AVZ_VALIDATE_ARG_CLOCKID, h0, hobj]

/-- C3 at `nanosleep(REALTIME, 0, "not-an-object")`. -/
theorem nanosleep_rejects_non_object_witness :
    (ClockNanosleep linuxHost quietOS [num 0, num 0, .string "not-an-object"]).calls = [] ∧
    (ClockNanosleep linuxHost quietOS [num 0, num 0, .string "not-an-object"]).result =
      .threw .Error "Sleep time must be an object, e.g. \x7bsec: 1212, nsec: 4344\x7d" :=
  nanosleep_rejects_non_object linuxHost quietOS (num 0) (num 0) (.string "not-an-object")
    (by decide) (by decide)

/-- On either platform-specific path, a thrown message is never the out-of-range message. -/
theorem sleep_paths_never_out_of_range (H : Host) (os : SleepOS) (arg0 : JSValue)
    (clockId flags : Int) (ts : Timespec) :
    (sleepLinux H os arg0 clockId flags ts).result
        ≠ .threw .Error "Option `nsec` must be in [0; 999999999]" ∧
    (sleepFallback H os arg0 clockId flags ts).result
        ≠ .threw .Error "Option `nsec` must be in [0; 999999999]" := by
  have hcolon : ∀ a b : String, a ++ ": " ++ b ≠ "Option `nsec` must be in [0; 999999999]" := by
    intro a b hab
    have hmem := colon_mem_described a b
    rw [hab] at hmem
    revert hmem
    decide
  constructor
  · unfold sleepLinux
    simp only
    split_ifs
    · simp only [ne_eq, Completion.threw.injEq, true_and]; decide
    · simp
    · simp only [ne_eq, Completion.threw.injEq, true_and]; exact hcolon _ _
    · simp
  · unfold sleepFallback
    simp only
    split_ifs
    · simp only [ne_eq, Completion.threw.injEq, true_and]; decide
    · simp only [ne_eq, Completion.threw.injEq, true_and]; decide
    · simp
    · simp only [ne_eq, Completion.threw.injEq, true_and]; exact hcolon _ _
    · simp

/-- C2: for a `nanosleep` call with an int32 clock id, an object third argument, `sec` undefined
or a uint32 and `nsec` the uint32 `n`, on a host whose `long` has at least 32 bits: the call throws
the error "Option `nsec` must be in [0; 999999999]" exactly when `n ≥ 1000000000`, and then no OS
primitive has been invoked. -/
theorem nanosleep_nsec_out_of_range_iff (H : Host) (os : SleepOS) (arg0 arg1 arg2 : JSValue)
    (n : Int) (hlong : 32 ≤ H.longBits)
    (h0 : IsInt32 arg0 = true) (hobj : IsObject arg2 = true)
    (hsec : IsUndefined (Get arg2 "sec") = true ∨ IsUint32 (Get arg2 "sec") = true)
    (hnsec : Get arg2 "nsec" = num n) (hn : IsUint32 (num n) = true) :
    ((ClockNanosleep H os [arg0, arg1, arg2]).result
        = .threw .Error "Option `nsec` must be in [0; 999999999]" ↔ 1000000000 ≤ n) ∧
    (1000000000 ≤ n → (ClockNanosleep H os [arg0, arg1, arg2]).calls = []) := by
  have hn2 : 0 ≤ n ∧ n < 2 ^ 32 := by
    simp only [num, IsUint32, decide_eq_true_eq] at hn
    norm_num at hn ⊢
    omega
  have hu : Uint32Value H (num n) = n := by
    simp only [num, Uint32Value, ToNumber, truncate]
    exact castUint32_eq_self n hn2.1 hn2.2
  have hrange := castSigned_long_out_of_range H.longBits n hlong hn2.1 hn2.2
  by_cases hbig : 1000000000 ≤ n
  · have hthrow : ClockNanosleep H os [arg0, arg1, arg2] =
        ⟨[], .threw .Error "Option `nsec` must be in [0; 999999999]"⟩ := by
      have hsec2 : (!IsUndefined (Get arg2 "sec") && !IsUint32 (Get arg2 "sec")) = false := by
        rcases hsec with h | h <;> simp [h]
      have hnsec2 : (!IsUndefined (num n) && !IsUint32 (num n)) = false := by
        simp [hn]
      simp only [ClockNanosleep, AVZ_VALIDATE_ARG_CLOCKID, h0, hobj, hsec2, hnsec, hnsec2, hu]
      simp only [Bool.not_true, Bool.false_eq_true, if_false, hrange.mpr hbig, if_true]
    rw [hthrow]
    exact ⟨⟨fun _ => hbig, fun _ => rfl⟩, fun _ => rfl⟩
  · have hval : PassesValidation H arg0 arg2 := by
      refine ⟨h0, hobj, hsec, Or.inr (by rw [hnsec]; exact hn), ?_, ?_⟩
      · simp only [requestedTime, hnsec, hu]
        by_contra hc
        exact hbig (hrange.mp (Or.inl (by omega)))
      · simp only [requestedTime, hnsec, hu]
        by_contra hc
        exact hbig (hrange.mp (Or.inr (by omega)))
    rw [ClockNanosleep_of_valid H os arg0 arg1 arg2 hval]
    refine ⟨⟨fun h => ?_, fun h => absurd h hbig⟩, fun h => absurd h hbig⟩
    exfalso
    have hpaths := sleep_paths_never_out_of_range H os arg0 (Int32Value H arg0)
      (Int32Value H arg1) (requestedTime H arg2)
    cases hl : H.linux
    · rw [hl] at h; exact hpaths.2 h
    · rw [hl] at h; exact hpaths.1 h

/-- C2 at `nanosleep(MONOTONIC, 0, {sec: 0, nsec: 1000000000})`: the out-of-range error is thrown
and no OS primitive is invoked. -/
theorem nanosleep_nsec_out_of_range_iff_witness :
    (ClockNanosleep linuxHost quietOS [num 1, num 0, timeValue 0 1000000000]).result
        = .threw .Error "Option `nsec` must be in [0; 999999999]" ∧
    (ClockNanosleep linuxHost quietOS [num 1, num 0, timeValue 0 1000000000]).calls = [] :=
  have h := nanosleep_nsec_out_of_range_iff linuxHost quietOS (num 1) (num 0)
    (timeValue 0 1000000000) 1000000000 (by decide) (by decide) (by decide) (by decide) rfl
    (by decide)
  ⟨h.1.mpr (by decide), h.2 (by decide)⟩

/-- C8 (counterexample): on a Linux host whose `time_t` has 32 bits,
`nanosleep(MONOTONIC, 0, {sec: 3000000000})` has an int32 clock id, an object third argument, a
present uint32 `sec` and an absent `nsec`, passes validation, and invokes `clock_nanosleep` with
-1294967296 seconds, not with the supplied 3000000000. -/
theorem nanosleep_sec_wraps_on_32bit_time :
    IsInt32 (num 1) = true ∧
    IsUint32 (Get (.object [("sec", num 3000000000)]) "sec") = true ∧
    IsUndefined (Get (.object [("sec", num 3000000000)]) "nsec") = true ∧
    (ClockNanosleep linux32Host quietOS [num 1, num 0, .object [("sec", num 3000000000)]]).calls
      = [.clock_nanosleep 1 0 ⟨-1294967296, 0⟩] ∧
    (ClockNanosleep linux32Host quietOS [num 1, num 0, .object [("sec", num 3000000000)]]).calls
      ≠ [.clock_nanosleep 1 0 ⟨3000000000, 0⟩] := by
  decide

/-- C8 (amended): for a `nanosleep` call with an int32 clock id and an object third argument whose
`sec` and `nsec` are each absent (undefined) or present (`sec` a uint32, `nsec` below 1000000000):
validation passes, and the sleep primitive is invoked exactly once, with 0 for each absent field,
with the supplied value for a present `nsec`, and with the supplied value for a present `sec` that
the `time_t` of the host can represent (`sec < 2^(timeBits - 1)`: every uint32 when `time_t` is
wider than 32 bits, the values below 2^31 when it has 32 bits). On the `clock_nanosleep` path that
is unconditional; on the fallback path it holds once the clock and flag gates of that path are
passed. -/
theorem nanosleep_absent_fields_default_zero (H : Host) (os : SleepOS)
    (arg0 arg1 arg2 : JSValue) (sec nsec : Option Int)
    (htime : 0 < H.timeBits) (hlong : 32 ≤ H.longBits)
    (h0 : IsInt32 arg0 = true) (hobj : IsObject arg2 = true)
    (hsec : Get arg2 "sec" = fieldValue sec) (hnsec : Get arg2 "nsec" = fieldValue nsec)
    (hs : ∀ s, sec = some s → 0 ≤ s ∧ s < 2 ^ 32)
    (hfit : ∀ s, sec = some s → s < 2 ^ (H.timeBits - 1))
    (hn : ∀ n, nsec = some n → 0 ≤ n ∧ n < 1000000000) :
    PassesValidation H arg0 arg2 ∧
    (H.linux = true →
      (ClockNanosleep H os [arg0, arg1, arg2]).calls =
        [.clock_nanosleep (Int32Value H arg0) (Int32Value H arg1)
          ⟨sec.getD 0, nsec.getD 0⟩]) ∧
    (H.linux = false → Int32Value H arg0 = H.CLOCK_REALTIME →
      Int.land (Int32Value H arg1) H.TIMER_ABSTIME = 0 →
      (ClockNanosleep H os [arg0, arg1, arg2]).calls =
        [.nanosleep ⟨sec.getD 0, nsec.getD 0⟩]) := by
  have hval := passesValidation_of_fields H arg0 arg2 sec nsec hlong h0 hobj hsec hnsec hs hn
  have hreq : requestedTime H arg2 = ⟨sec.getD 0, nsec.getD 0⟩ := by
    have h1 := requestedTime_sec_of_field H arg2 sec hsec hs
    have h2 := requestedTime_nsec_of_field H arg2 nsec hlong hnsec hn
    rw [castSigned_time_of_fits H.timeBits sec htime hs hfit] at h1
    cases hr : requestedTime H arg2 with
    | mk a b =>
      rw [hr] at h1 h2
      simp only at h1 h2
      rw [h1, h2]
  refine ⟨hval, fun hlinux => ?_, fun hlinux hclock hflag => ?_⟩
  · rw [ClockNanosleep_of_valid H os arg0 arg1 arg2 hval, hlinux, hreq]
    simp only [if_true, sleepLinux]
    split_ifs <;> rfl
  · rw [ClockNanosleep_of_valid H os arg0 arg1 arg2 hval, hlinux, hreq]
    simp only [Bool.false_eq_true, if_false, sleepFallback, hclock, hflag, ne_eq,
      not_true_eq_false]
    split_ifs <;> rfl

/-- C8 (amended) at `nanosleep(MONOTONIC, 0, {})` and `nanosleep(MONOTONIC, 0, {sec: 3000000000})`
on the 64-bit host, and at `nanosleep(MONOTONIC, 0, {sec: 5})` on the host with a 32-bit `time_t`:
a zero-length sleep, a sleep of exactly 3000000000 seconds, and one of exactly 5 seconds. -/
theorem nanosleep_absent_fields_default_zero_witness :
    (ClockNanosleep linuxHost quietOS [num 1, num 0, .object []]).calls =
        [.clock_nanosleep 1 0 ⟨0, 0⟩] ∧
    (ClockNanosleep linuxHost quietOS [num 1, num 0, .object [("sec", num 3000000000)]]).calls =
        [.clock_nanosleep 1 0 ⟨3000000000, 0⟩] ∧
    (ClockNanosleep linux32Host quietOS [num 1, num 0, .object [("sec", num 5)]]).calls =
        [.clock_nanosleep 1 0 ⟨5, 0⟩] :=
  ⟨(nanosleep_absent_fields_default_zero linuxHost quietOS (num 1) (num 0) (.object [])
      none none (by decide) (by decide) (by decide) (by decide) rfl rfl
      (by intro s h; cases h) (by intro s h; cases h) (by intro n h; cases h)).2.1 rfl,
   (nanosleep_absent_fields_default_zero linuxHost quietOS (num 1) (num 0)
      (.object [("sec", num 3000000000)]) (some 3000000000) none (by decide) (by decide)
      (by decide) (by decide) rfl rfl (by intro s h; cases h; decide)
      (by intro s h; cases h; decide) (by intro n h; cases h)).2.1 rfl,
   (nanosleep_absent_fields_default_zero linux32Host quietOS (num 1) (num 0)
      (.object [("sec", num 5)]) (some 5) none (by decide) (by decide) (by decide) (by decide)
      rfl rfl (by intro s h; cases h; decide) (by intro s h; cases h; decide)
      (by intro n h; cases h)).2.1 rfl⟩

/-! ## The fallback path -/

/-- C9: on a host without `__linux__`, for every `nanosleep` call whose arguments pass validation,
if the clock id is not `CLOCK_REALTIME` or the `TIMER_ABSTIME` bit is set in the flags, the call
throws without invoking any sleep primitive: the "only REALTIME is supported" error in the first
case, the "flag not supported" error otherwise. -/
theorem nanosleep_fallback_rejects (H : Host) (os : SleepOS) (arg0 arg1 arg2 : JSValue)
    (hlinux : H.linux = false) (hval : PassesValidation H arg0 arg2)
    (h : Int32Value H arg0 ≠ H.CLOCK_REALTIME ∨
      Int.land (Int32Value H arg1) H.TIMER_ABSTIME ≠ 0) :
    (ClockNanosleep H os [arg0, arg1, arg2]).calls = [] ∧
    (ClockNanosleep H os [arg0, arg1, arg2]).result =
      (if Int32Value H arg0 ≠ H.CLOCK_REALTIME then
        .threw .Error "Only nanosleep(REALTIME) clock is supported by your OS"
      else
        .threw .Error "Flag nanosleep(TIMER_ABSTIME) is not supported by your OS") := by
  rw [ClockNanosleep_of_valid H os arg0 arg1 arg2 hval, hlinux]
  simp only [Bool.false_eq_true, if_false, sleepFallback]
  by_cases hc : Int32Value H arg0 = H.CLOCK_REALTIME
  · have hf : Int.land (Int32Value H arg1) H.TIMER_ABSTIME ≠ 0 := by
      rcases h with h | h
      · exact absurd hc h
      · exact h
    simp [hc, hf]
  · simp [hc]

/-- C9 at `nanosleep(MONOTONIC, TIMER_ABSTIME, {sec: 1, nsec: 0})` and at
`nanosleep(REALTIME, TIMER_ABSTIME, {sec: 1, nsec: 0})` on the FreeBSD host. -/
theorem nanosleep_fallback_rejects_witness :
    ((ClockNanosleep bsdHost quietOS [num 4, num 1, timeValue 1 0]).calls = [] ∧
      (ClockNanosleep bsdHost quietOS [num 4, num 1, timeValue 1 0]).result =
        .threw .Error "Only nanosleep(REALTIME) clock is supported by your OS") ∧
    ((ClockNanosleep bsdHost quietOS [num 0, num 1, timeValue 1 0]).calls = [] ∧
      (ClockNanosleep bsdHost quietOS [num 0, num 1, timeValue 1 0]).result =
        .threw .Error "Flag nanosleep(TIMER_ABSTIME) is not supported by your OS") :=
  ⟨nanosleep_fallback_rejects bsdHost quietOS (num 4) (num 1) (timeValue 1 0) rfl
      (by decide) (by decide),
   nanosleep_fallback_rejects bsdHost quietOS (num 0) (num 1) (timeValue 1 0) rfl
      (by decide) (by decide)⟩

/-! ## Errors of the `clock_nanosleep` path -/

/-- C10: on the `clock_nanosleep` path, for every call with the int32 clock id `i` whose arguments
pass validation (and with `EINVAL` and `EINTR` distinct error numbers), where `err` is what the
sleep primitive, invoked on clock id `i`, returns: the call throws if and only if `err` is neither
0 nor `EINTR`; `EINVAL` throws the "not supported on this system or invalid argument" error; any
other such code throws the error whose message is `strerror(err)`, then ": ", then the decimal
numeral of `i`; a return of 0 returns `undefined` and throws nothing; `EINTR` throws nothing. -/
theorem nanosleep_linux_throws_iff (H : Host) (os : SleepOS) (i : Int) (arg1 arg2 : JSValue)
    (err : Int) (hlinux : H.linux = true) (hval : PassesValidation H (num i) arg2)
    (hne : H.EINVAL ≠ H.EINTR)
    (herr : (os.clock_nanosleep i (Int32Value H arg1) (requestedTime H arg2)).err = err) :
    (ClockNanosleep H os [num i, arg1, arg2]).calls =
      [.clock_nanosleep i (Int32Value H arg1) (requestedTime H arg2)] ∧
    ((∃ c m, (ClockNanosleep H os [num i, arg1, arg2]).result = .threw c m) ↔
      (err ≠ 0 ∧ err ≠ H.EINTR)) ∧
    (err ≠ 0 → err = H.EINVAL →
      (ClockNanosleep H os [num i, arg1, arg2]).result = .threw .Error
        "Specified clockId is not supported on this system or invalid argument") ∧
    (err ≠ 0 → err ≠ H.EINVAL → err ≠ H.EINTR →
      (ClockNanosleep H os [num i, arg1, arg2]).result =
        .threw .Error (H.strerror err ++ ": " ++ toString i)) ∧
    (err = 0 → (ClockNanosleep H os [num i, arg1, arg2]).result = .returned .undefined) ∧
    (err = H.EINTR →
      ¬ ∃ c m, (ClockNanosleep H os [num i, arg1, arg2]).result = .threw c m) := by
  have hrange : -(2 ^ 31) ≤ i ∧ i ≤ 2 ^ 31 - 1 := by
    simpa [num, IsInt32] using hval.1
  have hid : Int32Value H (num i) = i := by
    simp only [num, Int32Value, ToNumber, truncate]
    exact castSigned32_eq_self i hrange.1 hrange.2
  have hstr : ToString H (num i) = toString i := rfl
  rw [ClockNanosleep_of_valid H os (num i) arg1 arg2 hval, hlinux]
  simp only [if_true, sleepLinux, hid, hstr, herr]
  by_cases h0 : err = 0
  · subst h0
    simp
  · by_cases hinval : err = H.EINVAL
    · subst hinval
      simp [h0, hne]
    · by_cases hintr : err = H.EINTR
      · subst hintr
        simp [h0, hinval]
      · simp [h0, hinval, hintr]

/-- C10 at a sleep on clock id 1 that fails with `EPERM` (error number 1): the call throws, and
the message is "Operation not permitted: 1", the description of the error, then ": ", then the
numeral of the clock id. -/
theorem nanosleep_linux_throws_iff_witness :
    (∃ c m, (ClockNanosleep linuxHost deniedOS [num 1, num 0, timeValue 1 0]).result
      = .threw c m) ∧
    (ClockNanosleep linuxHost deniedOS [num 1, num 0, timeValue 1 0]).result =
      .threw .Error "Operation not permitted: 1" :=
  have h := nanosleep_linux_throws_iff linuxHost deniedOS 1 (num 0) (timeValue 1 0) 1
    rfl (by decide) (by decide) rfl
  ⟨h.2.1.mpr (by decide), h.2.2.2.1 (by decide) (by decide) (by decide)⟩

/-! ## Reading a clock -/

/-- C5: for every int32 clock id `c`, where `rep` is what the clock-read primitive reports for
`c`, `gettime(c)` invokes that primitive once and: on success (with nanoseconds that fit a uint32
and seconds a `double` represents exactly) returns the record whose `sec` and `nsec` are the
reported seconds and nanoseconds; on failure with `EINVAL` throws the error saying the clock id is
not supported on this system; on failure with any other errno throws the error whose message is
`strerror(errno)` followed by the numeral of the clock id. -/
theorem gettime_result (H : Host) (clock_gettime : Int → ClockReport) (c : Int)
    (rep : ClockReport) (hc : IsInt32 (num c) = true) (hrep : clock_gettime c = rep) :
    (ClockGetTime H clock_gettime [num c]).calls = [.clock_gettime c] ∧
    (rep.ret = 0 → rep.ts.tv_sec.natAbs < 2 ^ 53 →
      0 ≤ rep.ts.tv_nsec → rep.ts.tv_nsec < 2 ^ 32 →
      (ClockGetTime H clock_gettime [num c]).result =
        .returned (timeValue rep.ts.tv_sec rep.ts.tv_nsec)) ∧
    (rep.ret ≠ 0 → rep.errno = H.EINVAL →
      (ClockGetTime H clock_gettime [num c]).result =
        .threw .Error "Specified clockId is not supported on this system") ∧
    (rep.ret ≠ 0 → rep.errno ≠ H.EINVAL →
      (ClockGetTime H clock_gettime [num c]).result =
        .threw .Error (H.strerror rep.errno ++ toString c)) := by
  have hrange : -(2 ^ 31) ≤ c ∧ c ≤ 2 ^ 31 - 1 := by
    simpa [num, IsInt32] using hc
  have hid : Int32Value H (num c) = c := by
    simp only [num, Int32Value, ToNumber, truncate]
    exact castSigned32_eq_self c hrange.1 hrange.2
  simp only [ClockGetTime, AVZ_VALIDATE_ARG_CLOCKID, hc, hid, hrep]
  refine ⟨?_, ?_, ?_, ?_⟩
  · simp only [Bool.not_true, Bool.false_eq_true, if_false]
    split_ifs <;> rfl
  · intro hret hsec hlo hhi
    simp only [Bool.not_true, Bool.false_eq_true, if_false, hret, ne_eq, not_true_eq_false]
    simp only [AVZ_FILL_TIMESPEC, ObjectSet, NumberNew, NewFromUnsigned, timeValue, num,
      roundToDouble_eq_self _ hsec, castUint32_eq_self _ hlo hhi]
    rfl
  · intro hret herrno
    simp [hret, herrno]
  · intro hret herrno
    simp [hret, herrno, ToString, num]

/-- C5 at `gettime(1)` with a clock that reports 1700000000 s and 123456789 ns, with a clock
that rejects the id with `EINVAL`, and with a clock that fails with `EPERM`. -/
theorem gettime_result_witness :
    (ClockGetTime linuxHost tickingClock [num 1]).result =
      .returned (timeValue 1700000000 123456789) ∧
    (ClockGetTime linuxHost rejectingClock [num 1]).result =
      .threw .Error "Specified clockId is not supported on this system" ∧
    (ClockGetTime linuxHost deniedClock [num 1]).result =
      .threw .Error (linuxHost.strerror 1 ++ toString (1 : Int)) :=
  ⟨(gettime_result linuxHost tickingClock 1 (tickingClock 1) (by decide) rfl).2.1
      rfl (by decide) (by decide) (by decide),
   (gettime_result linuxHost rejectingClock 1 (rejectingClock 1) (by decide) rfl).2.2.1
      (by decide) rfl,
   (gettime_result linuxHost deniedClock 1 (deniedClock 1) (by decide) rfl).2.2.2
      (by decide) (by decide)⟩

/-! ## Clock resolution -/

/-- C7: for every host, every OS primitive `prim` and every argument list, `getres` running on
`prim` as its clock-resolution primitive completes exactly as `gettime` running on `prim` as its
clock-read primitive (same returned record, or same error constructor and message), and the two
invoke their primitive on the same clock ids: they differ only in which primitive that is. -/
theorem getres_same_as_gettime (H : Host) (prim : Int → ClockReport) (args : List JSValue) :
    (ClockGetRes H prim args).result = (ClockGetTime H prim args).result ∧
    (ClockGetRes H prim args).calls = (ClockGetTime H prim args).calls.map asResolutionCall := by
  unfold ClockGetRes ClockGetTime AVZ_VALIDATE_ARG_CLOCKID
  split
  · simp only
    split_ifs <;> exact ⟨rfl, rfl⟩
  · exact ⟨rfl, rfl⟩

/-! ## The clock id argument -/

/-- C4 (counterexample): `gettime("REALTIME")`, whose argument is not an int32, and
`gettime(9999)`, whose clock id the OS rejects with `EINVAL`, complete with the same error
constructor and the same message; the first without invoking the OS, the second after invoking
it. The message therefore does not tell the two apart. -/
theorem gettime_argument_error_not_distinguished :
    (ClockGetTime linuxHost rejectingClock [.string "REALTIME"]).calls = [] ∧
    (ClockGetTime linuxHost rejectingClock [num 9999]).calls = [.clock_gettime 9999] ∧
    (ClockGetTime linuxHost rejectingClock [.string "REALTIME"]).result =
      .threw .Error "Specified clockId is not supported on this system" ∧
    (ClockGetTime linuxHost rejectingClock [num 9999]).result =
      .threw .Error "Specified clockId is not supported on this system" :=
  ⟨rfl, rfl, rfl, rfl⟩

/-- C4 (amended): for every value `v` that is not an int32, `gettime(v)`, `getres(v)` and
`nanosleep(v, _, _)` invoke no OS primitive and throw the error "Specified clockId is not supported
on this system". In `gettime` and `getres` that is the very completion of a call whose clock id the
OS rejects with `EINVAL`; only the `EINVAL` error of `nanosleep` (on the `clock_nanosleep` path)
differs from it. -/
theorem clockId_argument_error (H : Host) (prim : Int → ClockReport) (os : SleepOS)
    (v arg1 arg2 : JSValue) (hv : IsInt32 v = false) :
    ((ClockGetTime H prim [v]).calls = [] ∧
      (ClockGetTime H prim [v]).result =
        .threw .Error "Specified clockId is not supported on this system") ∧
    ((ClockGetRes H prim [v]).calls = [] ∧
      (ClockGetRes H prim [v]).result =
        .threw .Error "Specified clockId is not supported on this system") ∧
    ((ClockNanosleep H os [v, arg1, arg2]).calls = [] ∧
      (ClockNanosleep H os [v, arg1, arg2]).result =
        .threw .Error "Specified clockId is not supported on this system") ∧
    (∀ c : JSValue, IsInt32 c = true →
      (prim (Int32Value H c)).ret ≠ 0 → (prim (Int32Value H c)).errno = H.EINVAL →
      (ClockGetTime H prim [c]).result = (ClockGetTime H prim [v]).result ∧
      (ClockGetRes H prim [c]).result = (ClockGetRes H prim [v]).result) ∧
    (∀ c a1 a2 : JSValue, H.linux = true → PassesValidation H c a2 → H.EINVAL ≠ 0 →
      (os.clock_nanosleep (Int32Value H c) (Int32Value H a1) (requestedTime H a2)).err
        = H.EINVAL →
      (ClockNanosleep H os [c, a1, a2]).result ≠ (ClockNanosleep H os [v, arg1, arg2]).result) := by
  have hgt : ClockGetTime H prim [v] =
      ⟨[], .threw .Error "Specified clockId is not supported on this system"⟩ := by
    simp [ClockGetTime, AVZ_VALIDATE_ARG_CLOCKID, hv]
  have hgr : ClockGetRes H prim [v] =
      ⟨[], .threw .Error "Specified clockId is not supported on this system"⟩ := by
    simp [ClockGetRes, AVZ_VALIDATE_ARG_CLOCKID, hv]
  have hns : ClockNanosleep H os [v, arg1, arg2] =
      ⟨[], .threw .Error "Specified clockId is not supported on this system"⟩ := by
    simp [ClockNanosleep, AVZ_VALIDATE_ARG_CLOCKID, hv]
  rw [hgt, hgr, hns]
  refine ⟨⟨rfl, rfl⟩, ⟨rfl, rfl⟩, ⟨rfl, rfl⟩, ?_, ?_⟩
  · intro c hc hret herrno
    simp [ClockGetTime, ClockGetRes, AVZ_VALIDATE_ARG_CLOCKID, hc, hret, herrno]
  · intro c a1 a2 hlinux hval hnz herr
    rw [ClockNanosleep_of_valid H os c a1 a2 hval, hlinux]
    simp only [if_true, sleepLinux, herr, ne_eq, hnz, not_false_eq_true,
      Completion.threw.injEq, true_and]
    decide

/-- C4 (amended) at the string "REALTIME" passed as clock id on the Linux host. -/
theorem clockId_argument_error_witness :
    (ClockGetRes linuxHost rejectingClock [.string "REALTIME"]).calls = [] ∧
    (ClockGetRes linuxHost rejectingClock [.string "REALTIME"]).result =
      .threw .Error "Specified clockId is not supported on this system" :=
  (clockId_argument_error linuxHost rejectingClock quietOS (.string "REALTIME") (num 0)
    (timeValue 0 0) (by decide)).2.1

/-! ## Names in the constant table -/

/-- Setting a property adds at most its own name to the names of an object. -/
theorem mem_exportedNames_ObjectSet (target : List (String × JSValue)) (name : String)
    (x : JSValue) (k : String) (h : k ∈ exportedNames (ObjectSet target name x)) :
    k ∈ exportedNames target ∨ k = name := by
  induction target with
  | nil =>
    simp only [ObjectSet, exportedNames, List.map_cons, List.map_nil, List.mem_singleton] at h
    exact Or.inr h
  | cons p rest ih =>
    obtain ⟨k0, v0⟩ := p
    simp only [ObjectSet] at h
    split_ifs at h with hk
    · left
      simpa [exportedNames] using h
    · simp only [exportedNames, List.map_cons, List.mem_cons] at h ih ⊢
      rcases h with h | h
      · exact Or.inl (Or.inl h)
      · rcases ih h with h | h
        · exact Or.inl (Or.inr h)
        · exact Or.inr h

/-- An unconditional constant adds at most its own name. -/
theorem exportedNames_define_subset (target : List (String × JSValue)) (name : String)
    (value : Int) (names : List String) (h : exportedNames target ⊆ names) :
    exportedNames (ODC_DEFINE_CONSTANT target name value) ⊆ name :: names := by
  intro k hk
  rcases mem_exportedNames_ObjectSet target name _ k hk with hk | hk
  · exact List.mem_cons_of_mem _ (h hk)
  · rw [hk]; exact List.mem_cons_self _ _

/-- A guarded constant adds at most its own name. -/
theorem exportedNames_ifdef_subset (target : List (String × JSValue)) (name : String)
    (value : Option Int) (names : List String) (h : exportedNames target ⊆ names) :
    exportedNames (ifdefConstant target name value) ⊆ name :: names := by
  cases value with
  | none => exact fun k hk => List.mem_cons_of_mem _ (h hk)
  | some v => exact exportedNames_define_subset target name v names h

/-- Every name `init` binds on an empty export object is one of the eighteen names that occur in
its source text (listed here from the last line of `init` to the first). -/
theorem exportedNames_init_subset (M : Macros) :
    exportedNames (init M []) ⊆
      ["PROF", "THREAD_SECOND", "THREAD_UPTIME_PRECISE", "UPTIME_FAST", "UPTIME",
        "MONOTONIC_PRECISE", "MONOTONIC_FAST", "REALTIME_PRECISE", "REALTIME_FAST",
        "THREAD_CPUTIME_ID", "PROCESS_CPUTIME_ID", "BOOTTIME", "MONOTONIC_RAW",
        "MONOTONIC_COARSE", "REALTIME_COARSE", "MONOTONIC", "REALTIME", "TIMER_ABSTIME"] := by
  unfold init
  repeat
    first
      | apply exportedNames_ifdef_subset
      | apply exportedNames_define_subset
  exact List.Subset.refl _

/-- C6 (what the code does): on no host does `init` bind the name `UPTIME_PRECISE` or the name
`SECOND`. On FreeBSD, which defines `CLOCK_UPTIME_PRECISE` as 7 and `CLOCK_SECOND` as 13, the two
values are bound to the names `THREAD_UPTIME_PRECISE` and `THREAD_SECOND` instead. -/
theorem init_misnames_uptime_precise_and_second :
    (∀ M : Macros, "UPTIME_PRECISE" ∉ exportedNames (init M []) ∧
      "SECOND" ∉ exportedNames (init M [])) ∧
    exportedNames (init freebsdMacros []) =
      ["TIMER_ABSTIME", "REALTIME", "MONOTONIC", "PROCESS_CPUTIME_ID", "THREAD_CPUTIME_ID",
        "REALTIME_FAST", "REALTIME_PRECISE", "MONOTONIC_FAST", "MONOTONIC_PRECISE", "UPTIME",
        "UPTIME_FAST", "THREAD_UPTIME_PRECISE", "THREAD_SECOND", "PROF"] ∧
    ObjectGet (init freebsdMacros []) "THREAD_UPTIME_PRECISE" = num 7 ∧
    ObjectGet (init freebsdMacros []) "THREAD_SECOND" = num 13 ∧
    ObjectGet (init freebsdMacros []) "UPTIME_PRECISE" = .undefined ∧
    ObjectGet (init freebsdMacros []) "SECOND" = .undefined := by
  refine ⟨fun M => ⟨fun h => ?_, fun h => ?_⟩, by decide, rfl, rfl, rfl, rfl⟩
  · exact absurd (exportedNames_init_subset M h) (by decide)
  · exact absurd (exportedNames_init_subset M h) (by decide)

end PosixClock
